import Mathlib

/-!
# Verification of the rendering-frame core (HelloTriangleApplication)

Shallow embedding of the swapchain/frame-scheduling code of the repository:
the pure helper functions (`calculateMinImageCount`, `chooseSwapSurfaceFormat`,
`chooseSwapExtent`, `findMemoryType`, `transitionImageLayout`,
`recordCommandBuffer`) and a transition-system model of `drawFrame`,
`createSyncObjects` and `recreateSwapChain`.
-/

namespace Aether

/-- `MAX_FRAMES_IN_FLIGHT` constant from the source. -/
def MAX_FRAMES_IN_FLIGHT : Nat := 2

/-- `std::numeric_limits<uint32_t>::max()`, the sentinel "undefined extent". -/
def UINT32_MAX : Nat := 2 ^ 32 - 1

/-- `vk::Extent2D`: a width/height pair of `uint32_t`. -/
structure Extent2D where
  width : Nat
  height : Nat
deriving DecidableEq, Repr

/-- The fields of `vk::SurfaceCapabilitiesKHR` consulted by the code. -/
structure SurfaceCapabilitiesKHR where
  minImageCount : Nat
  maxImageCount : Nat
  currentExtent : Extent2D
  minImageExtent : Extent2D
  maxImageExtent : Extent2D
deriving DecidableEq, Repr

/-- `HelloTriangleApplication::calculateMinImageCount`:
`max(3, minImageCount)`, capped at `maxImageCount` when the latter is
positive (0 means unbounded). -/
def calculateMinImageCount (caps : SurfaceCapabilitiesKHR) : Nat :=
  if caps.maxImageCount > 0 ∧ max 3 caps.minImageCount > caps.maxImageCount then
    caps.maxImageCount
  else
    max 3 caps.minImageCount

/-- Mathematical clamp used to state the spec's `clamp(v, lo, hi)`. -/
def clampSpec (v lo hi : Nat) : Nat := max lo (min v hi)

/-- `std::clamp(v, lo, hi)`: `v < lo ? lo : hi < v ? hi : v`. -/
def clampCpp (v lo hi : Nat) : Nat :=
  if v < lo then lo else if hi < v then hi else v

/-- `HelloTriangleApplication::chooseSwapExtent`.  The SDL window surface
query is modelled by passing the window pixel size `(windowW, windowH)`
directly; the source clamps it only in the sentinel branch. -/
def chooseSwapExtent (caps : SurfaceCapabilitiesKHR) (windowW windowH : Nat) :
    Extent2D :=
  if caps.currentExtent.width ≠ UINT32_MAX then
    caps.currentExtent
  else
    { width := clampCpp windowW caps.minImageExtent.width caps.maxImageExtent.width
      height := clampCpp windowH caps.minImageExtent.height caps.maxImageExtent.height }

/-- Componentwise order on extents. -/
def extentLE (a b : Extent2D) : Prop := a.width ≤ b.width ∧ a.height ≤ b.height

instance (a b : Extent2D) : Decidable (extentLE a b) := by
  unfold extentLE; infer_instance

/-! ## Surface formats -/

/-- `VK_FORMAT_B8G8R8A8_SRGB` (VkFormat enum value 50). -/
def VK_FORMAT_B8G8R8A8_SRGB : Nat := 50

/-- `VK_COLOR_SPACE_SRGB_NONLINEAR_KHR` (enum value 0). -/
def VK_COLOR_SPACE_SRGB_NONLINEAR_KHR : Nat := 0

/-- `vk::SurfaceFormatKHR`: a format / color-space pair (enum values). -/
structure SurfaceFormatKHR where
  format : Nat
  colorSpace : Nat
deriving DecidableEq, Repr

/-- The predicate of the loop body in `chooseSwapSurfaceFormat`. -/
def isPreferredFormat (f : SurfaceFormatKHR) : Bool :=
  f.format = VK_FORMAT_B8G8R8A8_SRGB ∧
    f.colorSpace = VK_COLOR_SPACE_SRGB_NONLINEAR_KHR

/-- `HelloTriangleApplication::chooseSwapSurfaceFormat`: first candidate
matching BGRA8-sRGB / sRGB-nonlinear, else `availableFormats[0]`.  The
out-of-bounds index on an empty vector is made total as `none`. -/
def chooseSwapSurfaceFormat (availableFormats : List SurfaceFormatKHR) :
    Option SurfaceFormatKHR :=
  match availableFormats.find? isPreferredFormat with
  | some f => some f
  | none => availableFormats.head?

/-! ## Memory-type selection -/

/-- The `propertyFlags` field of one `vk::MemoryType` (a bitmask). -/
structure MemoryType where
  propertyFlags : Nat
deriving DecidableEq, Repr

/-- Loop body condition of `findMemoryType` at index `i`:
`(typeFilter & (1 << i)) && (memoryTypes[i].propertyFlags & properties) == properties`. -/
def memoryTypeSuitable (typeFilter properties : Nat) (t : MemoryType) (i : Nat) :
    Prop :=
  Nat.testBit typeFilter i ∧ (t.propertyFlags &&& properties) = properties

instance (tf p : Nat) (t : MemoryType) (i : Nat) :
    Decidable (memoryTypeSuitable tf p t i) := by
  unfold memoryTypeSuitable; infer_instance

/-- The scan of `findMemoryType`, with the running index made explicit. -/
def findMemoryTypeAux (typeFilter properties : Nat) :
    List MemoryType → Nat → Option Nat
  | [], _ => none
  | t :: rest, i =>
    if memoryTypeSuitable typeFilter properties t i then some i
    else findMemoryTypeAux typeFilter properties rest (i + 1)

/-- `HelloTriangleApplication::findMemoryType`: linear scan over the
device's memory types; `none` models the
`throw std::runtime_error("failed to find suitable memory type!")`. -/
def findMemoryType (memoryTypes : List MemoryType)
    (typeFilter properties : Nat) : Option Nat :=
  findMemoryTypeAux typeFilter properties memoryTypes 0

/-! ## Layout transitions (`transitionImageLayout`) -/

/-- The `vk::ImageLayout` values appearing in the source. -/
inductive ImageLayout where
  | eUndefined
  | eTransferDstOptimal
  | eShaderReadOnlyOptimal
  | eColorAttachmentOptimal
  | eDepthAttachmentOptimal
  | ePresentSrcKHR
deriving DecidableEq, Repr, Fintype

/-- `VK_ACCESS_TRANSFER_WRITE_BIT`. -/
def ACCESS_TRANSFER_WRITE : Nat := 0x1000
/-- `VK_ACCESS_SHADER_READ_BIT`. -/
def ACCESS_SHADER_READ : Nat := 0x20
/-- `VK_PIPELINE_STAGE_TOP_OF_PIPE_BIT`. -/
def STAGE_TOP_OF_PIPE : Nat := 0x1
/-- `VK_PIPELINE_STAGE_TRANSFER_BIT`. -/
def STAGE_TRANSFER : Nat := 0x1000
/-- `VK_PIPELINE_STAGE_FRAGMENT_SHADER_BIT`. -/
def STAGE_FRAGMENT_SHADER : Nat := 0x80

/-- The fields of the `vk::ImageMemoryBarrier` set by `transitionImageLayout`. -/
structure ImageMemoryBarrier where
  oldLayout : ImageLayout
  newLayout : ImageLayout
  srcAccessMask : Nat
  dstAccessMask : Nat
deriving DecidableEq, Repr

/-- A barrier together with the `pipelineBarrier` stage arguments. -/
structure BarrierRecord where
  barrier : ImageMemoryBarrier
  sourceStage : Nat
  destinationStage : Nat
deriving DecidableEq, Repr

/-- `HelloTriangleApplication::transitionImageLayout`: the two supported
layout pairs and the `throw std::invalid_argument` branch. -/
def transitionImageLayout (oldLayout newLayout : ImageLayout) :
    Except String BarrierRecord :=
  if oldLayout = .eUndefined ∧ newLayout = .eTransferDstOptimal then
    .ok { barrier := { oldLayout := oldLayout, newLayout := newLayout,
                       srcAccessMask := 0, dstAccessMask := ACCESS_TRANSFER_WRITE }
          sourceStage := STAGE_TOP_OF_PIPE
          destinationStage := STAGE_TRANSFER }
  else if oldLayout = .eTransferDstOptimal ∧ newLayout = .eShaderReadOnlyOptimal then
    .ok { barrier := { oldLayout := oldLayout, newLayout := newLayout,
                       srcAccessMask := ACCESS_TRANSFER_WRITE,
                       dstAccessMask := ACCESS_SHADER_READ }
          sourceStage := STAGE_TRANSFER
          destinationStage := STAGE_FRAGMENT_SHADER }
  else
    .error "unsupported layout transition!"

/-- Capabilities whose non-sentinel `currentExtent` lies outside
`[minImageExtent, maxImageExtent]`. -/
def outOfRangeCaps : SurfaceCapabilitiesKHR :=
  { minImageCount := 1
    maxImageCount := 0
    currentExtent := { width := 0, height := 0 }
    minImageExtent := { width := 1, height := 1 }
    maxImageExtent := { width := 4, height := 4 } }

/-- Capabilities reporting the sentinel "undefined" current extent. -/
def sentinelCaps : SurfaceCapabilitiesKHR :=
  { minImageCount := 1
    maxImageCount := 0
    currentExtent := { width := UINT32_MAX, height := 7 }
    minImageExtent := { width := 1, height := 1 }
    maxImageExtent := { width := 4, height := 4 } }

/-! ## Command recording (`recordCommandBuffer`, `transition_image_layout`) -/

/-- `VK_PIPELINE_STAGE_2_COLOR_ATTACHMENT_OUTPUT_BIT`. -/
def STAGE2_COLOR_ATTACHMENT_OUTPUT : Nat := 0x400
/-- `VK_PIPELINE_STAGE_2_EARLY_FRAGMENT_TESTS_BIT`. -/
def STAGE2_EARLY_FRAGMENT_TESTS : Nat := 0x100
/-- `VK_PIPELINE_STAGE_2_LATE_FRAGMENT_TESTS_BIT`. -/
def STAGE2_LATE_FRAGMENT_TESTS : Nat := 0x200
/-- `VK_PIPELINE_STAGE_2_BOTTOM_OF_PIPE_BIT`. -/
def STAGE2_BOTTOM_OF_PIPE : Nat := 0x2000
/-- `VK_ACCESS_2_COLOR_ATTACHMENT_WRITE_BIT`. -/
def ACCESS2_COLOR_ATTACHMENT_WRITE : Nat := 0x100
/-- `VK_ACCESS_2_DEPTH_STENCIL_ATTACHMENT_WRITE_BIT`. -/
def ACCESS2_DEPTH_STENCIL_ATTACHMENT_WRITE : Nat := 0x400
/-- `VK_IMAGE_ASPECT_COLOR_BIT`. -/
def ASPECT_COLOR : Nat := 0x1
/-- `VK_IMAGE_ASPECT_DEPTH_BIT`. -/
def ASPECT_DEPTH : Nat := 0x2

/-- The image a barrier of `recordCommandBuffer` targets. -/
inductive BarrierTarget where
  | swapchainImage (imageIndex : Nat)
  | depthImage
deriving DecidableEq, Repr

/-- The fields of a `vk::ImageMemoryBarrier2` as filled in by
`HelloTriangleApplication::transition_image_layout`. -/
structure ImageMemoryBarrier2 where
  srcStageMask : Nat
  srcAccessMask : Nat
  dstStageMask : Nat
  dstAccessMask : Nat
  oldLayout : ImageLayout
  newLayout : ImageLayout
  aspectMask : Nat
deriving DecidableEq, Repr

/-- One command recorded into a frame's command buffer. -/
inductive RecordedCmd where
  | beginCmd
  | pipelineBarrier2 (target : BarrierTarget) (b : ImageMemoryBarrier2)
  | beginRendering (imageIndex : Nat)
  | bindPipeline
  | setViewport
  | setScissor
  | bindVertexBuffers
  | bindIndexBuffer
  | bindDescriptorSets (frameIndex : Nat)
  | drawIndexed
  | endRendering
  | endCmd
deriving DecidableEq, Repr

/-- `HelloTriangleApplication::transition_image_layout` (the
synchronization2 helper): builds the barrier from its arguments. -/
def transition_image_layout (target : BarrierTarget)
    (oldLayout newLayout : ImageLayout)
    (srcAccessMask dstAccessMask srcStageMask dstStageMask aspect : Nat) :
    RecordedCmd :=
  .pipelineBarrier2 target
    { srcStageMask := srcStageMask
      srcAccessMask := srcAccessMask
      dstStageMask := dstStageMask
      dstAccessMask := dstAccessMask
      oldLayout := oldLayout
      newLayout := newLayout
      aspectMask := aspect }

/-- `HelloTriangleApplication::recordCommandBuffer(imageIndex)`: the exact
sequence of commands recorded into `commandBuffers[frameIndex]`. -/
def recordCommandBuffer (frameIndex imageIndex : Nat) : List RecordedCmd :=
  [ .beginCmd
  , transition_image_layout (.swapchainImage imageIndex)
      .eUndefined .eColorAttachmentOptimal
      0 ACCESS2_COLOR_ATTACHMENT_WRITE
      STAGE2_COLOR_ATTACHMENT_OUTPUT STAGE2_COLOR_ATTACHMENT_OUTPUT
      ASPECT_COLOR
  , transition_image_layout .depthImage
      .eUndefined .eDepthAttachmentOptimal
      ACCESS2_DEPTH_STENCIL_ATTACHMENT_WRITE ACCESS2_DEPTH_STENCIL_ATTACHMENT_WRITE
      (STAGE2_EARLY_FRAGMENT_TESTS ||| STAGE2_LATE_FRAGMENT_TESTS)
      (STAGE2_EARLY_FRAGMENT_TESTS ||| STAGE2_LATE_FRAGMENT_TESTS)
      ASPECT_DEPTH
  , .beginRendering imageIndex
  , .bindPipeline
  , .setViewport
  , .setScissor
  , .bindVertexBuffers
  , .bindIndexBuffer
  , .bindDescriptorSets frameIndex
  , .drawIndexed
  , .endRendering
  , transition_image_layout (.swapchainImage imageIndex)
      .eColorAttachmentOptimal .ePresentSrcKHR
      ACCESS2_COLOR_ATTACHMENT_WRITE 0
      STAGE2_COLOR_ATTACHMENT_OUTPUT STAGE2_BOTTOM_OF_PIPE
      ASPECT_COLOR
  , .endCmd ]

/-- The barrier the spec claims for the acquired image: prior layout
(`undefined` on first use, else `present-source`) to color-attachment,
`\x7b\x7d → color-attachment-write`, color-attachment-output stages both sides.
This definition follows the SPEC's words, for comparison with the source. -/
def claimedColorBarrier (firstUse : Bool) : ImageMemoryBarrier2 :=
  { srcStageMask := STAGE2_COLOR_ATTACHMENT_OUTPUT
    srcAccessMask := 0
    dstStageMask := STAGE2_COLOR_ATTACHMENT_OUTPUT
    dstAccessMask := ACCESS2_COLOR_ATTACHMENT_WRITE
    oldLayout := if firstUse then .eUndefined else .ePresentSrcKHR
    newLayout := .eColorAttachmentOptimal
    aspectMask := ASPECT_COLOR }

/-! ## The frame loop (`createSyncObjects`, `recreateSwapChain`, `drawFrame`)

The GPU executes asynchronously; the model keeps, per frame slot, the state
of its `inFlightFences` fence: `signaled`, `unsignaled` (reset, with no
submission that will signal it), or `pending` (passed to `queue.submit`,
GPU work not yet retired).  The ghost field `sinceSubmit g` records whether
slot `g`'s fence has signaled since slot `g`'s previous submission: it is
set `true` exactly when the fence transitions to `signaled` (GPU retirement
or `waitIdle`), set `false` exactly at `queue.submit` for slot `g`, and is
`true` before the first submission. -/

/-- The fence of one frame slot. -/
inductive FenceState where
  | signaled
  | unsignaled
  | pending
deriving DecidableEq, Repr

/-- The application state the frame loop reads and writes. -/
structure AppState where
  frameIndex : Nat
  /-- `inFlightFences`, one per frame slot. -/
  fence : Nat → FenceState
  /-- Ghost: slot's fence has signaled since the slot's last submission. -/
  sinceSubmit : Nat → Bool
  framebufferResized : Bool
  /-- `swapChainImages.size()` of the current chain. -/
  numImages : Nat
  /-- `renderFinishedSemaphores.size()`. -/
  numRenderFinished : Nat

/-- State after `initVulkan` with a negotiated image count `k`:
`createSyncObjects` sizes `renderFinishedSemaphores` to
`swapChainImages.size()` and creates the fences pre-signaled
(`vk::FenceCreateFlagBits::eSignaled`). -/
def initialState (k : Nat) : AppState :=
  { frameIndex := 0
    fence := fun _ => .signaled
    sinceSubmit := fun _ => true
    framebufferResized := false
    numImages := k
    numRenderFinished := k }

/-- Result of `swapChain.acquireNextImage` as inspected by `drawFrame`. -/
inductive AcquireResult where
  | success (imageIndex : Nat)
  | suboptimal (imageIndex : Nat)
  | outOfDate
  | failure
deriving DecidableEq, Repr

/-- Result of `queue.presentKHR` as inspected by `drawFrame`: a returned
result value, or a thrown `vk::SystemError` carrying `eErrorOutOfDateKHR`. -/
inductive PresentResult where
  | success
  | suboptimal
  | outOfDateReturned
  | outOfDateThrown
  | failure
deriving DecidableEq, Repr

/-- The environment of one `drawFrame` call: which pending submissions the
GPU retires before the call, the driver results, and the image count a
rebuilt swapchain would get. -/
structure TickEnv where
  gpuComplete : Nat → Bool
  acquire : AcquireResult
  present : PresentResult
  newImageCount : Nat

/-- Observable actions of one `drawFrame` call. -/
inductive Event where
  | waitFence (f : Nat)
  | resetFence (f : Nat)
  | acquireImage (f : Nat)
  | recreate
  | updateUniform (f : Nat)
  | resetCommandBuffer (f : Nat)
  | record (f imageIndex : Nat)
  | submit (f imageIndex : Nat)
  | present (imageIndex : Nat)
deriving DecidableEq, Repr

/-- How a `drawFrame` call ends: normal return, blocked forever inside
`waitForFences`, or a thrown fatal error. -/
inductive Outcome where
  | ok
  | blocked
  | fatal
deriving DecidableEq, Repr

/-- Result of one `drawFrame` call.  `violation` is `true` when the call
reset or resubmitted the slot's command buffer although the slot's fence
had not signaled since the slot's previous submission. -/
structure TickResult where
  state : AppState
  outcome : Outcome
  events : List Event
  violation : Bool

/-- Asynchronous GPU progress: a pending submission may retire at any time,
signaling its fence. -/
def gpuProgress (st : AppState) (c : Nat → Bool) : AppState :=
  { st with
    fence := fun g => if st.fence g = .pending ∧ c g then .signaled else st.fence g
    sinceSubmit := fun g =>
      if st.fence g = .pending ∧ c g then true else st.sinceSubmit g }

/-- `HelloTriangleApplication::recreateSwapChain`: `device.waitIdle()`
retires every pending submission, then the chain is rebuilt with a new
image count.  `renderFinishedSemaphores` is not touched. -/
def recreateSwapChain (st : AppState) (newCount : Nat) : AppState :=
  { st with
    fence := fun g => if st.fence g = .pending then .signaled else st.fence g
    sinceSubmit := fun g => if st.fence g = .pending then true else st.sinceSubmit g
    numImages := newCount }

/-- The body of `drawFrame` after `waitForFences` has returned
(so `fence frameIndex` is `signaled`), line by line from the source. -/
def drawFrameAfterWait (st0 : AppState) (env : TickEnv) : TickResult :=
  let f := st0.frameIndex
  let st1 : AppState := { st0 with fence := Function.update st0.fence f .unsignaled }
  match env.acquire with
  | .outOfDate =>
    { state := recreateSwapChain st1 env.newImageCount
      outcome := .ok
      events := [.waitFence f, .resetFence f, .acquireImage f, .recreate]
      violation := false }
  | .failure =>
    { state := st1
      outcome := .fatal
      events := [.waitFence f, .resetFence f, .acquireImage f]
      violation := false }
  | .success imageIndex | .suboptimal imageIndex =>
    let viol := ! st1.sinceSubmit f
    let st2 : AppState := { st1 with fence := Function.update st1.fence f .unsignaled }
    let st3 : AppState := { st2 with
      fence := Function.update st2.fence f .pending
      sinceSubmit := Function.update st2.sinceSubmit f false }
    let evs : List Event :=
      [.waitFence f, .resetFence f, .acquireImage f, .updateUniform f,
       .resetFence f, .resetCommandBuffer f, .record f imageIndex,
       .submit f imageIndex, .present imageIndex]
    match env.present with
    | .outOfDateThrown =>
      { state := recreateSwapChain st3 env.newImageCount
        outcome := .ok
        events := evs ++ [.recreate]
        violation := viol }
    | .failure =>
      { state := st3
        outcome := .fatal
        events := evs
        violation := viol }
    | .outOfDateReturned =>
      { state :=
          { recreateSwapChain { st3 with framebufferResized := false }
              env.newImageCount with
            frameIndex := (f + 1) % MAX_FRAMES_IN_FLIGHT }
        outcome := .ok
        events := evs ++ [.recreate]
        violation := viol }
    | .suboptimal =>
      { state :=
          { recreateSwapChain { st3 with framebufferResized := false }
              env.newImageCount with
            frameIndex := (f + 1) % MAX_FRAMES_IN_FLIGHT }
        outcome := .ok
        events := evs ++ [.recreate]
        violation := viol }
    | .success =>
      if st3.framebufferResized then
        { state :=
            { recreateSwapChain { st3 with framebufferResized := false }
                env.newImageCount with
              frameIndex := (f + 1) % MAX_FRAMES_IN_FLIGHT }
          outcome := .ok
          events := evs ++ [.recreate]
          violation := viol }
      else
        { state := { st3 with frameIndex := (f + 1) % MAX_FRAMES_IN_FLIGHT }
          outcome := .ok
          events := evs
          violation := viol }

/-- The `waitForFences` head of `drawFrame`:
`waitForFences(inFlightFences[frameIndex], UINT64_MAX)` returns once the
fence is signaled — a fence that was reset and has no submission referring
to it is never signaled, so the wait blocks forever. -/
def drawFrameWait (st : AppState) (env : TickEnv) : TickResult :=
  match st.fence st.frameIndex with
  | .unsignaled =>
    { state := st
      outcome := .blocked
      events := [.waitFence st.frameIndex]
      violation := false }
  | .signaled => drawFrameAfterWait st env
  | .pending =>
    drawFrameAfterWait
      { st with
        fence := Function.update st.fence st.frameIndex .signaled
        sinceSubmit := Function.update st.sinceSubmit st.frameIndex true }
      env

/-- `HelloTriangleApplication::drawFrame`: asynchronous GPU progress may
happen first, then the call runs from the fence wait onward. -/
def drawFrame (st0 : AppState) (env : TickEnv) : TickResult :=
  drawFrameWait (gpuProgress st0 env.gpuComplete) env

/-- The states the application can reach: the post-init state, `drawFrame`
calls, and the external resize notification setting `framebufferResized`. -/
inductive Reachable (k : Nat) : AppState → Prop where
  | init : Reachable k (initialState k)
  | tick (st : AppState) (env : TickEnv) :
      Reachable k st → Reachable k (drawFrame st env).state
  | resize (st : AppState) :
      Reachable k st → Reachable k { st with framebufferResized := true }

/-- The synchronization invariant of the loop: a currently-signaled fence
has, in particular, signaled since its slot's last submission. -/
def Inv (st : AppState) : Prop :=
  ∀ g, st.fence g = .signaled → st.sinceSubmit g = true

/-- Whether an event is a `recordCommandBuffer` call. -/
def isRecordEvent : Event → Bool
  | .record _ _ => true
  | _ => false

/-- Whether an event is a `queue.submit` call. -/
def isSubmitEvent : Event → Bool
  | .submit _ _ => true
  | _ => false

/-- Whether an event is a `queue.presentKHR` call. -/
def isPresentEvent : Event → Bool
  | .present _ => true
  | _ => false

/-- A tick on which acquisition reports the surface is out of date. -/
def outdatedTickEnv : TickEnv :=
  { gpuComplete := fun _ => false
    acquire := .outOfDate
    present := .success
    newImageCount := 3 }

/-- The first tick after init when acquisition reports out-of-date. -/
def outdatedTickResult : TickResult := drawFrame (initialState 3) outdatedTickEnv

/-- The state after an out-of-date acquire made `recreateSwapChain` rebuild
the chain with 5 images, starting from an initial chain of 3. -/
def recreatedTo5 : AppState :=
  (drawFrame (initialState 3)
    { gpuComplete := fun _ => false
      acquire := .outOfDate
      present := .success
      newImageCount := 5 }).state

/-! ## Theorems about the pure helpers -/

/-- C3: for every surface-capabilities input (with the Vulkan guarantee
`minImageCount ≤ maxImageCount` whenever `maxImageCount > 0`),
`calculateMinImageCount` returns
`clamp(max(3, minImageCount), minImageCount, maxImageCount)` when
`maxImageCount > 0`, and `max(3, minImageCount)` when `maxImageCount = 0`. -/
theorem calculateMinImageCount_spec (caps : SurfaceCapabilitiesKHR)
    (h : caps.maxImageCount > 0 → caps.minImageCount ≤ caps.maxImageCount) :
    calculateMinImageCount caps =
      if caps.maxImageCount > 0 then
        clampSpec (max 3 caps.minImageCount) caps.minImageCount caps.maxImageCount
      else
        max 3 caps.minImageCount := by
  unfold calculateMinImageCount clampSpec
  split_ifs <;> omega

/-- Witness for C3 at concrete capabilities (bounded and unbounded). -/
theorem calculateMinImageCount_spec_witness :
    calculateMinImageCount
        { minImageCount := 2, maxImageCount := 2,
          currentExtent := { width := 0, height := 0 },
          minImageExtent := { width := 0, height := 0 },
          maxImageExtent := { width := 0, height := 0 } } = 2 := by
  have h := calculateMinImageCount_spec
    { minImageCount := 2, maxImageCount := 2,
      currentExtent := { width := 0, height := 0 },
      minImageExtent := { width := 0, height := 0 },
      maxImageExtent := { width := 0, height := 0 } } (by decide)
  simpa using h

/-- C4 counterexample: on capabilities whose non-sentinel `currentExtent`
is `(0,0)` with `minImageExtent = (1,1)`, `chooseSwapExtent` returns the
unclamped `(0,0)`, violating `minImageExtent ≤ extent`. -/
theorem chooseSwapExtent_claim_counterexample :
    ¬ (extentLE outOfRangeCaps.minImageExtent
          (chooseSwapExtent outOfRangeCaps 2 2) ∧
       extentLE (chooseSwapExtent outOfRangeCaps 2 2)
          outOfRangeCaps.maxImageExtent) := by
  decide

/-- C4 (amended): provided the capabilities are well-formed —
`minImageExtent ≤ maxImageExtent` componentwise and, when `currentExtent`
is not the sentinel, `minImageExtent ≤ currentExtent ≤ maxImageExtent` —
the extent returned by `chooseSwapExtent` satisfies
`minImageExtent ≤ extent ≤ maxImageExtent` componentwise. -/
theorem chooseSwapExtent_in_bounds (caps : SurfaceCapabilitiesKHR)
    (windowW windowH : Nat)
    (hwf : extentLE caps.minImageExtent caps.maxImageExtent)
    (hcur : caps.currentExtent.width ≠ UINT32_MAX →
        extentLE caps.minImageExtent caps.currentExtent ∧
        extentLE caps.currentExtent caps.maxImageExtent) :
    extentLE caps.minImageExtent (chooseSwapExtent caps windowW windowH) ∧
    extentLE (chooseSwapExtent caps windowW windowH) caps.maxImageExtent := by
  unfold chooseSwapExtent
  split_ifs with hs
  · exact hcur hs
  · unfold extentLE at hwf
    unfold extentLE clampCpp
    refine ⟨⟨?_, ?_⟩, ⟨?_, ?_⟩⟩ <;> dsimp only <;> split_ifs <;> omega

/-- Witness for C4's amended theorem: sentinel capabilities with window
size `(10, 0)` clamp into `[1,4] × [1,4]`. -/
theorem chooseSwapExtent_in_bounds_witness :
    extentLE sentinelCaps.minImageExtent (chooseSwapExtent sentinelCaps 10 0) ∧
    extentLE (chooseSwapExtent sentinelCaps 10 0) sentinelCaps.maxImageExtent :=
  chooseSwapExtent_in_bounds sentinelCaps 10 0 (by decide) (by decide)

/-- C5: `transitionImageLayout` records, for undefined→transfer-destination,
empty source access and transfer-write destination access; for
transfer-destination→shader-read-only, transfer-write source access and
shader-read destination access; and errors on every other layout pair. -/
theorem transitionImageLayout_spec :
    transitionImageLayout .eUndefined .eTransferDstOptimal =
      .ok { barrier := { oldLayout := .eUndefined,
                         newLayout := .eTransferDstOptimal,
                         srcAccessMask := 0,
                         dstAccessMask := ACCESS_TRANSFER_WRITE }
            sourceStage := STAGE_TOP_OF_PIPE
            destinationStage := STAGE_TRANSFER } ∧
    transitionImageLayout .eTransferDstOptimal .eShaderReadOnlyOptimal =
      .ok { barrier := { oldLayout := .eTransferDstOptimal,
                         newLayout := .eShaderReadOnlyOptimal,
                         srcAccessMask := ACCESS_TRANSFER_WRITE,
                         dstAccessMask := ACCESS_SHADER_READ }
            sourceStage := STAGE_TRANSFER
            destinationStage := STAGE_FRAGMENT_SHADER } ∧
    ∀ o n : ImageLayout,
      (∃ b, transitionImageLayout o n = .ok b) ↔
        ((o = .eUndefined ∧ n = .eTransferDstOptimal) ∨
         (o = .eTransferDstOptimal ∧ n = .eShaderReadOnlyOptimal)) := by
  refine ⟨by unfold transitionImageLayout; rfl,
          by unfold transitionImageLayout; rfl, ?_⟩
  intro o n
  unfold transitionImageLayout
  split_ifs with h1 h2
  · exact iff_of_true ⟨_, rfl⟩ (Or.inl h1)
  · exact iff_of_true ⟨_, rfl⟩ (Or.inr h2)
  · constructor
    · rintro ⟨b, hb⟩
      exact absurd hb (by simp)
    · rintro (h | h)
      · exact (h1 h).elim
      · exact (h2 h).elim

/-- C7 counterexample: on a subsequent use of a swapchain image, the
barrier `recordCommandBuffer` records still carries old layout
`eUndefined`, not the claimed prior layout `ePresentSrcKHR`. -/
theorem recordCommandBuffer_claim_counterexample :
    (recordCommandBuffer 0 0)[1]? ≠
      some (.pipelineBarrier2 (.swapchainImage 0) (claimedColorBarrier false)) := by
  decide

/-- C7 (amended): the barrier that transitions the acquired swapchain image
to color-attachment-optimal always uses `eUndefined` as its source layout —
regardless of whether the image was used before — and records
`\x7b\x7d → color-attachment-write` access with color-attachment-output
stages on both sides. -/
theorem recordCommandBuffer_color_barrier (frameIndex imageIndex : Nat) :
    (recordCommandBuffer frameIndex imageIndex)[1]? =
      some (.pipelineBarrier2 (.swapchainImage imageIndex)
              (claimedColorBarrier true)) := by
  rfl

/-- C8: on a non-empty candidate list, `chooseSwapSurfaceFormat` returns
the BGRA8-sRGB / sRGB-nonlinear entry when one is present, and the first
candidate otherwise. -/
theorem chooseSwapSurfaceFormat_spec (x : SurfaceFormatKHR)
    (xs : List SurfaceFormatKHR) :
    ((∃ f ∈ x :: xs, isPreferredFormat f) →
        chooseSwapSurfaceFormat (x :: xs) =
          some { format := VK_FORMAT_B8G8R8A8_SRGB,
                 colorSpace := VK_COLOR_SPACE_SRGB_NONLINEAR_KHR }) ∧
    ((∀ f ∈ x :: xs, ¬ isPreferredFormat f) →
        chooseSwapSurfaceFormat (x :: xs) = some x) := by
  constructor
  · intro hex
    have hsome : ((x :: xs).find? isPreferredFormat).isSome := by
      rw [List.find?_isSome]
      simpa using hex
    obtain ⟨g, hg⟩ := Option.isSome_iff_exists.mp hsome
    have hpg : isPreferredFormat g = true := List.find?_some hg
    have hgval : g = { format := VK_FORMAT_B8G8R8A8_SRGB,
                       colorSpace := VK_COLOR_SPACE_SRGB_NONLINEAR_KHR } := by
      cases g
      simp only [isPreferredFormat, decide_eq_true_eq] at hpg
      simp_all [isPreferredFormat]
    unfold chooseSwapSurfaceFormat
    rw [hg, hgval]
  · intro hnone
    have hfind : (x :: xs).find? isPreferredFormat = none := by
      rw [List.find?_eq_none]
      simpa using hnone
    unfold chooseSwapSurfaceFormat
    rw [hfind]
    rfl

/-- Witness for C8 at two concrete candidate lists: one containing the
preferred entry, one not. -/
theorem chooseSwapSurfaceFormat_spec_witness :
    chooseSwapSurfaceFormat [{ format := 50, colorSpace := 0 }] =
      some { format := 50, colorSpace := 0 } ∧
    chooseSwapSurfaceFormat [{ format := 49, colorSpace := 0 }] =
      some { format := 49, colorSpace := 0 } :=
  ⟨(chooseSwapSurfaceFormat_spec { format := 50, colorSpace := 0 } []).1
      ⟨{ format := 50, colorSpace := 0 }, by decide, by decide⟩,
   (chooseSwapSurfaceFormat_spec { format := 49, colorSpace := 0 } []).2
      (by decide)⟩

/-- Scan lemma for `findMemoryTypeAux`, generalizing the start index:
a `some i` answer names the first suitable slot of the scanned suffix and
a `none` answer means no slot of the suffix is suitable. -/
theorem findMemoryTypeAux_spec (tf p : Nat) :
    ∀ (L : List MemoryType) (s : Nat),
      (∀ i, findMemoryTypeAux tf p L s = some i →
        ∃ d, d < L.length ∧ i = s + d ∧
          memoryTypeSuitable tf p (L.getD d ⟨0⟩) (s + d) ∧
          ∀ e, e < d → ¬ memoryTypeSuitable tf p (L.getD e ⟨0⟩) (s + e)) ∧
      (findMemoryTypeAux tf p L s = none ↔
        ∀ d, d < L.length → ¬ memoryTypeSuitable tf p (L.getD d ⟨0⟩) (s + d)) := by
  intro L
  induction L with
  | nil =>
    intro s
    constructor
    · intro i hi
      simp [findMemoryTypeAux] at hi
    · simp [findMemoryTypeAux]
  | cons t rest ih =>
    intro s
    by_cases hs : memoryTypeSuitable tf p t s
    · constructor
      · intro i hi
        simp only [findMemoryTypeAux, if_pos hs, Option.some.injEq] at hi
        refine ⟨0, by simp, by omega, ?_, by omega⟩
        simpa using hs
      · refine iff_of_false (by simp [findMemoryTypeAux, if_pos hs]) ?_
        intro hall
        exact hall 0 (by simp) (by simpa using hs)
    · constructor
      · intro i hi
        simp only [findMemoryTypeAux, if_neg hs] at hi
        obtain ⟨d, hd, hid, hsuit, hmin⟩ := (ih (s + 1)).1 i hi
        refine ⟨d + 1, by simpa using Nat.succ_lt_succ hd, by omega, ?_, ?_⟩
        · rw [List.getD_cons_succ]
          have : s + (d + 1) = s + 1 + d := by omega
          rw [this]
          exact hsuit
        · intro e he
          cases e with
          | zero => simpa using hs
          | succ e' =>
            rw [List.getD_cons_succ]
            have : s + (e' + 1) = s + 1 + e' := by omega
            rw [this]
            exact hmin e' (by omega)
      · simp only [findMemoryTypeAux, if_neg hs]
        rw [(ih (s + 1)).2]
        constructor
        · intro h d hd
          cases d with
          | zero => simpa using hs
          | succ d' =>
            rw [List.getD_cons_succ]
            have he : s + (d' + 1) = s + 1 + d' := by omega
            rw [he]
            exact h d' (by simpa using Nat.lt_of_succ_lt_succ hd)
        · intro h d hd
          have := h (d + 1) (by simpa using Nat.succ_lt_succ hd)
          rw [List.getD_cons_succ] at this
          have he : s + (d + 1) = s + 1 + d := by omega
          rwa [he] at this

/-- C6: `findMemoryType` returns the lowest index `i` with bit `i` set in
`typeFilter` and property flags a superset of the requested properties, and
returns `none` (the thrown error) exactly when no index qualifies. -/
theorem findMemoryType_spec (memoryTypes : List MemoryType)
    (typeFilter properties : Nat) :
    (∀ i, findMemoryType memoryTypes typeFilter properties = some i →
        i < memoryTypes.length ∧
        memoryTypeSuitable typeFilter properties (memoryTypes.getD i ⟨0⟩) i ∧
        ∀ j, j < i →
          ¬ memoryTypeSuitable typeFilter properties (memoryTypes.getD j ⟨0⟩) j) ∧
    (findMemoryType memoryTypes typeFilter properties = none ↔
        ∀ i, i < memoryTypes.length →
          ¬ memoryTypeSuitable typeFilter properties (memoryTypes.getD i ⟨0⟩) i) := by
  have h := findMemoryTypeAux_spec typeFilter properties memoryTypes 0
  unfold findMemoryType
  constructor
  · intro i hi
    obtain ⟨d, hd, hid, hsuit, hmin⟩ := h.1 i hi
    have hdi : d = i := by omega
    subst hdi
    refine ⟨hd, by simpa using hsuit, ?_⟩
    intro j hj
    simpa using hmin j hj
  · rw [h.2]
    constructor
    · intro hall i hilen
      simpa using hall i hilen
    · intro hall d hdlen
      simpa using hall d hdlen

/-- Witness for C6: on a concrete two-type device, `findMemoryType` finds
index 1 and the characterization instantiates there. -/
theorem findMemoryType_spec_witness :
    1 < ([{ propertyFlags := 1 }, { propertyFlags := 3 }] : List MemoryType).length ∧
    memoryTypeSuitable 2 1
      (([{ propertyFlags := 1 }, { propertyFlags := 3 }] : List MemoryType).getD 1 ⟨0⟩) 1 ∧
    ∀ j, j < 1 →
      ¬ memoryTypeSuitable 2 1
        (([{ propertyFlags := 1 }, { propertyFlags := 3 }] : List MemoryType).getD j ⟨0⟩) j :=
  (findMemoryType_spec [{ propertyFlags := 1 }, { propertyFlags := 3 }] 2 1).1 1
    (by decide)

/-- C9: in the total embedding, `chooseSwapSurfaceFormat` hits the
out-of-bounds fallback (`none`) exactly on the empty candidate list. -/
theorem chooseSwapSurfaceFormat_none_iff (l : List SurfaceFormatKHR) :
    chooseSwapSurfaceFormat l = none ↔ l = [] := by
  cases l with
  | nil => simp [chooseSwapSurfaceFormat]
  | cons x xs =>
    cases hf : (x :: xs).find? isPreferredFormat <;>
      simp [chooseSwapSurfaceFormat, hf]

/-! ## Theorems about the frame loop -/

theorem inv_initialState (k : Nat) : Inv (initialState k) := by
  intro g _
  rfl

theorem inv_gpuProgress (st : AppState) (c : Nat → Bool) (h : Inv st) :
    Inv (gpuProgress st c) := by
  intro g hg
  unfold gpuProgress at hg ⊢
  dsimp only at hg ⊢
  by_cases hp : st.fence g = .pending ∧ c g
  · simp [hp]
  · rw [if_neg hp] at hg
    rw [if_neg hp]
    exact h g hg

theorem inv_recreateSwapChain (st : AppState) (n : Nat) (h : Inv st) :
    Inv (recreateSwapChain st n) := by
  intro g hg
  unfold recreateSwapChain at hg ⊢
  dsimp only at hg ⊢
  by_cases hp : st.fence g = .pending
  · simp [hp]
  · rw [if_neg hp] at hg
    rw [if_neg hp]
    exact h g hg

theorem inv_update_fence_unsignaled (st : AppState) (f : Nat) (h : Inv st) :
    Inv { st with fence := Function.update st.fence f .unsignaled } := by
  intro g hg
  dsimp only at hg
  by_cases hgf : g = f
  · subst hgf
    rw [Function.update_same] at hg
    exact absurd hg (by simp)
  · rw [Function.update_noteq hgf] at hg
    exact h g hg

theorem inv_submit_update (st : AppState) (f : Nat) (h : Inv st) :
    Inv { st with fence := Function.update st.fence f .pending,
                  sinceSubmit := Function.update st.sinceSubmit f false } := by
  intro g hg
  dsimp only at hg ⊢
  by_cases hgf : g = f
  · subst hgf
    rw [Function.update_same] at hg
    exact absurd hg (by simp)
  · rw [Function.update_noteq hgf] at hg
    rw [Function.update_noteq hgf]
    exact h g hg

theorem inv_signal_update (st : AppState) (f : Nat) (h : Inv st) :
    Inv { st with fence := Function.update st.fence f .signaled,
                  sinceSubmit := Function.update st.sinceSubmit f true } := by
  intro g hg
  dsimp only at hg ⊢
  by_cases hgf : g = f
  · subst hgf
    rw [Function.update_same]
  · rw [Function.update_noteq hgf]
    rw [Function.update_noteq hgf] at hg
    exact h g hg

theorem inv_of_fields (st st' : AppState) (hf : st'.fence = st.fence)
    (hs : st'.sinceSubmit = st.sinceSubmit) (h : Inv st) : Inv st' := by
  intro g hg
  rw [hs]
  refine h g ?_
  rw [← hf]
  exact hg

theorem inv_recreate_like (st st' : AppState)
    (hf : st'.fence =
      fun g => if st.fence g = .pending then FenceState.signaled else st.fence g)
    (hs : st'.sinceSubmit =
      fun g => if st.fence g = .pending then true else st.sinceSubmit g)
    (h : Inv st) : Inv st' := by
  intro g hg
  rw [hs]
  rw [hf] at hg
  dsimp only at hg ⊢
  by_cases hp : st.fence g = .pending
  · rw [if_pos hp]
  · rw [if_neg hp] at hg
    rw [if_neg hp]
    exact h g hg

theorem inv_drawFrameAfterWait (st : AppState) (env : TickEnv) (h : Inv st) :
    Inv (drawFrameAfterWait st env).state := by
  obtain ⟨c, acq, pres, n⟩ := env
  have h1 := inv_update_fence_unsignaled st st.frameIndex h
  have h2 := inv_update_fence_unsignaled _ st.frameIndex h1
  have h3 := inv_submit_update _ st.frameIndex h2
  cases acq <;> cases pres <;>
    simp only [drawFrameAfterWait] <;>
    first
      | exact inv_recreateSwapChain _ _ h1
      | exact inv_of_fields _ _ rfl rfl h1
      | exact inv_recreate_like _ _ rfl rfl h3
      | exact inv_of_fields _ _ rfl rfl h3
      | (split <;>
          first
            | exact inv_recreate_like _ _ rfl rfl h3
            | exact inv_of_fields _ _ rfl rfl h3)

theorem inv_drawFrameWait (st : AppState) (env : TickEnv) (h : Inv st) :
    Inv (drawFrameWait st env).state := by
  unfold drawFrameWait
  split
  · exact h
  · exact inv_drawFrameAfterWait _ _ h
  · exact inv_drawFrameAfterWait _ _ (inv_signal_update _ _ h)

theorem inv_drawFrame (st : AppState) (env : TickEnv) (h : Inv st) :
    Inv (drawFrame st env).state :=
  inv_drawFrameWait _ env (inv_gpuProgress st env.gpuComplete h)

theorem inv_reachable {k : Nat} {st : AppState} (h : Reachable k st) : Inv st := by
  induction h with
  | init => exact inv_initialState k
  | tick st env _ ih => exact inv_drawFrame st env ih
  | resize st _ ih => intro g hg; exact ih g hg

theorem drawFrameAfterWait_violation (st : AppState) (env : TickEnv)
    (h : st.sinceSubmit st.frameIndex = true) :
    (drawFrameAfterWait st env).violation = false := by
  obtain ⟨c, acq, pres, n⟩ := env
  cases acq <;> cases pres <;>
    simp only [drawFrameAfterWait] <;>
    first
      | rfl
      | (simp [h]; done)
      | (split <;> simp [h])

theorem drawFrameWait_violation (st : AppState) (env : TickEnv) (h : Inv st) :
    (drawFrameWait st env).violation = false := by
  unfold drawFrameWait
  split
  · rfl
  · next heq => exact drawFrameAfterWait_violation _ env (h _ heq)
  · next heq =>
    apply drawFrameAfterWait_violation
    dsimp only
    rw [Function.update_same]

/-- C1: along every reachable execution of the frame loop, a `drawFrame`
call never resets, re-records, or resubmits frame slot `f`'s command buffer
unless slot `f`'s fence has signaled since slot `f`'s previous submission:
the instrumentation flag checked at the command-buffer reset and at
`queue.submit` is never raised. -/
theorem drawFrame_no_unsynced_reuse (k : Nat) (st : AppState) (env : TickEnv)
    (h : Reachable k st) : (drawFrame st env).violation = false :=
  drawFrameWait_violation _ env (inv_gpuProgress st env.gpuComplete (inv_reachable h))

/-- Witness for C1: two concrete ticks from the initial state never raise
the instrumentation flag. -/
theorem drawFrame_no_unsynced_reuse_witness :
    (drawFrame
      (drawFrame (initialState 3)
        { gpuComplete := fun _ => false, acquire := .success 0,
          present := .success, newImageCount := 3 }).state
      { gpuComplete := fun _ => true, acquire := .success 1,
        present := .success, newImageCount := 3 }).violation = false :=
  drawFrame_no_unsynced_reuse 3 _ _ (Reachable.tick _ _ Reachable.init)

/-- C2 (code bug): an out-of-date acquire does make the tick perform
exactly one `recreateSwapChain` call and zero record/submit/present calls,
but the next tick does NOT proceed normally: the fence was reset before the
early return and no submission will ever signal it, so the next tick's
`waitForFences` blocks forever, whatever the environment does. -/
theorem drawFrame_outdated_tick_then_blocked :
    outdatedTickResult.outcome = .ok ∧
    outdatedTickResult.events.count .recreate = 1 ∧
    outdatedTickResult.events.countP isRecordEvent = 0 ∧
    outdatedTickResult.events.countP isSubmitEvent = 0 ∧
    outdatedTickResult.events.countP isPresentEvent = 0 ∧
    ∀ env : TickEnv, (drawFrame outdatedTickResult.state env).outcome = .blocked := by
  refine ⟨rfl, by decide, by decide, by decide, by decide, ?_⟩
  intro env
  rfl

theorem recreateSwapChain_numRenderFinished (st : AppState) (n : Nat) :
    (recreateSwapChain st n).numRenderFinished = st.numRenderFinished := rfl

theorem drawFrameAfterWait_numRenderFinished (st : AppState) (env : TickEnv) :
    (drawFrameAfterWait st env).state.numRenderFinished = st.numRenderFinished := by
  obtain ⟨c, acq, pres, n⟩ := env
  cases acq <;> cases pres <;>
    simp only [drawFrameAfterWait] <;>
    first | rfl | (split <;> rfl)

theorem drawFrameWait_numRenderFinished (st : AppState) (env : TickEnv) :
    (drawFrameWait st env).state.numRenderFinished = st.numRenderFinished := by
  unfold drawFrameWait
  split
  · rfl
  · exact drawFrameAfterWait_numRenderFinished _ _
  · exact drawFrameAfterWait_numRenderFinished _ _

theorem drawFrame_numRenderFinished (st : AppState) (env : TickEnv) :
    (drawFrame st env).state.numRenderFinished = st.numRenderFinished :=
  drawFrameWait_numRenderFinished _ env

theorem reachable_numRenderFinished {k : Nat} {st : AppState}
    (h : Reachable k st) : st.numRenderFinished = k := by
  induction h with
  | init => rfl
  | tick st env _ ih => rw [drawFrame_numRenderFinished]; exact ih
  | resize st _ ih => exact ih

/-- C10: `renderFinishedSemaphores` keeps the size it was given at
`createSyncObjects` (the initial image count `k`) on every reachable state,
and indexing it by any acquirable image index stays in bounds exactly when
the current swapchain's image count does not exceed `k`. -/
theorem renderFinishedSemaphores_indexing (k : Nat) (st : AppState)
    (h : Reachable k st) :
    st.numRenderFinished = k ∧
    ((∀ i, i < st.numImages → i < st.numRenderFinished) ↔ st.numImages ≤ k) := by
  have hk := reachable_numRenderFinished h
  refine ⟨hk, ?_⟩
  rw [hk]
  constructor
  · intro hall
    by_contra hlt
    push_neg at hlt
    exact absurd (hall k hlt) (lt_irrefl k)
  · intro hle i hi
    omega

/-- Witness for C10: after a recreation that grows the chain from 3 to 5
images, the semaphore array still has 3 entries and indexing is unsafe. -/
theorem renderFinishedSemaphores_indexing_witness :
    recreatedTo5.numRenderFinished = 3 ∧
    ((∀ i, i < recreatedTo5.numImages → i < recreatedTo5.numRenderFinished) ↔
      recreatedTo5.numImages ≤ 3) :=
  renderFinishedSemaphores_indexing 3 recreatedTo5
    (Reachable.tick _ _ Reachable.init)

end Aether
